import Mathlib

/-!
Verification of the zone-classification and comparison engine of the weekly
performance dashboard (`src/utils.py`).

Modelling conventions for the shallow embedding:
* pandas DataFrames become Lean lists of records whose fields carry the
  DataFrame column names (`ID`, `RATES`, `UIT`, `Zone`, ...);
* Python floats become `ℚ` (the arithmetic the code performs — comparison,
  subtraction, mean — is exact on the values involved);
* a nullable cell becomes an `Option`; pandas `NaN` results (e.g. the mean of
  an empty Series) become `none`;
* a Python function that returns `None` on failure becomes `Option`-valued.
-/

/-- Zone label returned by `classify_zone` for `RATES > ref` and `UIT > ref`. -/
def zone1 : String := "Zone 1: High Rate & High UIT"

/-- Zone label returned by `classify_zone` for `RATES > ref` and `UIT ≤ ref`. -/
def zone2 : String := "Zone 2: High Rate & Low UIT"

/-- Zone label returned by `classify_zone` for `RATES ≤ ref` and `UIT > ref`. -/
def zone3 : String := "Zone 3: Low Rate & High UIT"

/-- Zone label returned by `classify_zone` (final `else`) for `RATES ≤ ref` and `UIT ≤ ref`. -/
def zone4 : String := "Zone 4: Low Rate & Low UIT"

/-- Embedding of `classify_zone(row, user_rate, user_uit)` (src/utils.py lines
113–122).  The Python function reads exactly the `RATES` and `UIT` cells of the
row, so the row argument is projected to those two values. -/
def classify_zone (rates uit user_rate user_uit : ℚ) : String :=
  if rates > user_rate ∧ uit > user_uit then zone1
  else if rates > user_rate ∧ uit ≤ user_uit then zone2
  else if rates ≤ user_rate ∧ uit > user_uit then zone3
  else zone4

/-- A row of a validated (not yet classified) table: columns `ID`, `RATES`,
`UIT` after the renaming done by `validate_and_process_data`.  The worker
identifier may be null (pandas `NaN`), hence `Option`. -/
structure Row where
  ID : Option String
  RATES : ℚ
  UIT : ℚ
deriving DecidableEq, Repr

/-- A row of a classified table: the same columns plus the `Zone` column added
by `apply_zone_classification`. -/
structure ClassifiedRow where
  ID : Option String
  RATES : ℚ
  UIT : ℚ
  Zone : String
deriving DecidableEq, Repr

/-- Embedding of `apply_zone_classification(df, user_rate, user_uit)`
(src/utils.py lines 100–111) on a table that does not yet have a `Zone`
column: `df['Zone'] = df.apply(lambda row: classify_zone(row, ...), axis=1)`
adds the `Zone` column row by row. -/
def apply_zone_classification (df : List Row) (user_rate user_uit : ℚ) :
    List ClassifiedRow :=
  df.map (fun r =>
    { ID := r.ID, RATES := r.RATES, UIT := r.UIT
      Zone := classify_zone r.RATES r.UIT user_rate user_uit })

/-- Embedding of the same `apply_zone_classification` source function applied
to a table that already has a `Zone` column (pandas overwrites the column;
`classify_zone` never reads it). -/
def apply_zone_classification_again (df : List ClassifiedRow)
    (user_rate user_uit : ℚ) : List ClassifiedRow :=
  df.map (fun r =>
    { r with Zone := classify_zone r.RATES r.UIT user_rate user_uit })

/-- C1: for every `rate ≥ 0`, `idle_time_pct` in `[0,100]` and every pair of
thresholds, `classify_zone` returns exactly one of the four zone labels, each
label is returned exactly when its defining predicate holds, and the four
defining predicates are pairwise disjoint and jointly exhaustive. -/
theorem classify_zone_partition (rates uit user_rate user_uit : ℚ)
    (h0 : 0 ≤ rates) (h1 : 0 ≤ uit) (h2 : uit ≤ 100) :
    (classify_zone rates uit user_rate user_uit = zone1 ∨
     classify_zone rates uit user_rate user_uit = zone2 ∨
     classify_zone rates uit user_rate user_uit = zone3 ∨
     classify_zone rates uit user_rate user_uit = zone4) ∧
    (classify_zone rates uit user_rate user_uit = zone1 ↔
      rates > user_rate ∧ uit > user_uit) ∧
    (classify_zone rates uit user_rate user_uit = zone2 ↔
      rates > user_rate ∧ uit ≤ user_uit) ∧
    (classify_zone rates uit user_rate user_uit = zone3 ↔
      rates ≤ user_rate ∧ uit > user_uit) ∧
    (classify_zone rates uit user_rate user_uit = zone4 ↔
      rates ≤ user_rate ∧ uit ≤ user_uit) ∧
    ¬((rates > user_rate ∧ uit > user_uit) ∧ (rates > user_rate ∧ uit ≤ user_uit)) ∧
    ¬((rates > user_rate ∧ uit > user_uit) ∧ (rates ≤ user_rate ∧ uit > user_uit)) ∧
    ¬((rates > user_rate ∧ uit > user_uit) ∧ (rates ≤ user_rate ∧ uit ≤ user_uit)) ∧
    ¬((rates > user_rate ∧ uit ≤ user_uit) ∧ (rates ≤ user_rate ∧ uit > user_uit)) ∧
    ¬((rates > user_rate ∧ uit ≤ user_uit) ∧ (rates ≤ user_rate ∧ uit ≤ user_uit)) ∧
    ¬((rates ≤ user_rate ∧ uit > user_uit) ∧ (rates ≤ user_rate ∧ uit ≤ user_uit)) ∧
    ((rates > user_rate ∧ uit > user_uit) ∨ (rates > user_rate ∧ uit ≤ user_uit) ∨
     (rates ≤ user_rate ∧ uit > user_uit) ∨ (rates ≤ user_rate ∧ uit ≤ user_uit)) := by
  have hz12 : zone1 ≠ zone2 := by decide
  have hz13 : zone1 ≠ zone3 := by decide
  have hz14 : zone1 ≠ zone4 := by decide
  have hz23 : zone2 ≠ zone3 := by decide
  have hz24 : zone2 ≠ zone4 := by decide
  have hz34 : zone3 ≠ zone4 := by decide
  rcases le_or_lt rates user_rate with hr | hr <;>
    rcases le_or_lt uit user_uit with hu | hu
  · simp [classify_zone, hr, hu, not_lt.mpr hr, not_lt.mpr hu,
      hz14.symm, hz24.symm, hz34.symm]
  · simp [classify_zone, hr, hu, not_lt.mpr hr, not_le.mpr hu,
      hz13.symm, hz23.symm, hz34]
  · simp [classify_zone, hr, hu, not_le.mpr hr, not_lt.mpr hu,
      hz12.symm, hz23, hz24]
  · simp [classify_zone, hr, hu, not_le.mpr hr, not_le.mpr hu,
      hz12, hz13, hz14]

/-- Witness for C1 at `rates = 1`, `uit = 50`, `user_rate = 0`, `user_uit = 49`. -/
theorem classify_zone_partition_witness :
    ((0 : ℚ) ≤ 1 ∧ (0 : ℚ) ≤ 50 ∧ (50 : ℚ) ≤ 100) ∧
    ((classify_zone 1 50 0 49 = zone1 ∨
      classify_zone 1 50 0 49 = zone2 ∨
      classify_zone 1 50 0 49 = zone3 ∨
      classify_zone 1 50 0 49 = zone4) ∧
     (classify_zone 1 50 0 49 = zone1 ↔ (1 : ℚ) > 0 ∧ (50 : ℚ) > 49) ∧
     (classify_zone 1 50 0 49 = zone2 ↔ (1 : ℚ) > 0 ∧ (50 : ℚ) ≤ 49) ∧
     (classify_zone 1 50 0 49 = zone3 ↔ (1 : ℚ) ≤ 0 ∧ (50 : ℚ) > 49) ∧
     (classify_zone 1 50 0 49 = zone4 ↔ (1 : ℚ) ≤ 0 ∧ (50 : ℚ) ≤ 49) ∧
     ¬(((1 : ℚ) > 0 ∧ (50 : ℚ) > 49) ∧ ((1 : ℚ) > 0 ∧ (50 : ℚ) ≤ 49)) ∧
     ¬(((1 : ℚ) > 0 ∧ (50 : ℚ) > 49) ∧ ((1 : ℚ) ≤ 0 ∧ (50 : ℚ) > 49)) ∧
     ¬(((1 : ℚ) > 0 ∧ (50 : ℚ) > 49) ∧ ((1 : ℚ) ≤ 0 ∧ (50 : ℚ) ≤ 49)) ∧
     ¬(((1 : ℚ) > 0 ∧ (50 : ℚ) ≤ 49) ∧ ((1 : ℚ) ≤ 0 ∧ (50 : ℚ) > 49)) ∧
     ¬(((1 : ℚ) > 0 ∧ (50 : ℚ) ≤ 49) ∧ ((1 : ℚ) ≤ 0 ∧ (50 : ℚ) ≤ 49)) ∧
     ¬(((1 : ℚ) ≤ 0 ∧ (50 : ℚ) > 49) ∧ ((1 : ℚ) ≤ 0 ∧ (50 : ℚ) ≤ 49)) ∧
     (((1 : ℚ) > 0 ∧ (50 : ℚ) > 49) ∨ ((1 : ℚ) > 0 ∧ (50 : ℚ) ≤ 49) ∨
      ((1 : ℚ) ≤ 0 ∧ (50 : ℚ) > 49) ∨ ((1 : ℚ) ≤ 0 ∧ (50 : ℚ) ≤ 49))) :=
  ⟨⟨by norm_num, by norm_num, by norm_num⟩,
   classify_zone_partition 1 50 0 49 (by norm_num) (by norm_num) (by norm_num)⟩

/-- C2: boundary ties.  Equality with the rate reference classifies as
low-rate and equality with the idle reference classifies as low-idle:
`classify(rr, ur, rr, ur) = Zone 4`, `classify(rr+1, ur, rr, ur) = Zone 2`,
`classify(rr, ur+1, rr, ur) = Zone 3`, `classify(rr+1, ur+1, rr, ur) = Zone 1`. -/
theorem classify_zone_boundary_ties (user_rate user_uit : ℚ) :
    classify_zone user_rate user_uit user_rate user_uit = zone4 ∧
    classify_zone (user_rate + 1) user_uit user_rate user_uit = zone2 ∧
    classify_zone user_rate (user_uit + 1) user_rate user_uit = zone3 ∧
    classify_zone (user_rate + 1) (user_uit + 1) user_rate user_uit = zone1 := by
  refine ⟨?_, ?_, ?_, ?_⟩ <;>
    simp [classify_zone, lt_irrefl, lt_add_one, le_refl]

/-- C9: idempotence of classification.  Re-running `apply_zone_classification`
with the same thresholds on an already-classified table yields identical zone
assignments for every row. -/
theorem apply_zone_classification_idempotent (df : List Row)
    (user_rate user_uit : ℚ) :
    apply_zone_classification_again
        (apply_zone_classification df user_rate user_uit) user_rate user_uit
      = apply_zone_classification df user_rate user_uit := by
  simp only [apply_zone_classification, apply_zone_classification_again,
    List.map_map]
  rfl

/-- A row of the comparison DataFrame built by `create_comparison_dataframe`:
the inner-join columns plus the computed `Rate_Change`, `UIT_Change` and
`Zone_Changed` columns (src/utils.py lines 228–252).  `Zone` is the current
week's zone (the current table's `Zone` column is not renamed by the merge). -/
structure ComparisonRow where
  ID : Option String
  Last_Rate : ℚ
  Last_UIT : ℚ
  Last_Zone : String
  Current_Rate : ℚ
  Current_UIT : ℚ
  Zone : String
  Rate_Change : ℚ
  UIT_Change : ℚ
  Zone_Changed : Bool
deriving DecidableEq, Repr

/-- Embedding of `create_comparison_dataframe(df_last, df_current)`
(src/utils.py lines 228–252): `pd.merge(..., on='ID', how='inner')` pairs every
left row with every right row carrying an equal `ID` (pandas matches null keys
with null keys, mirrored by `Option` equality), then the three change columns
are computed.  `Zone_Changed` is `comparison_df['Zone'] != comparison_df['Last_Zone']`. -/
def create_comparison_dataframe (df_last df_current : List ClassifiedRow) :
    List ComparisonRow :=
  df_last.flatMap (fun a =>
    (df_current.filter (fun b => decide (b.ID = a.ID))).map (fun b =>
      { ID := a.ID
        Last_Rate := a.RATES, Last_UIT := a.UIT, Last_Zone := a.Zone
        Current_Rate := b.RATES, Current_UIT := b.UIT, Zone := b.Zone
        Rate_Change := b.RATES - a.RATES
        UIT_Change := b.UIT - a.UIT
        Zone_Changed := decide (b.Zone ≠ a.Zone) }))

lemma length_filter_id_of_nodup (B : List ClassifiedRow) (x : Option String)
    (hB : (B.map (fun b => b.ID)).Nodup) :
    (B.filter (fun b => decide (b.ID = x))).length
      = if x ∈ B.map (fun b => b.ID) then 1 else 0 := by
  induction B with
  | nil => simp
  | cons b B ih =>
      rw [List.map_cons, List.nodup_cons] at hB
      obtain ⟨hb, hB2⟩ := hB
      by_cases hx : b.ID = x
      · subst hx
        have h0 := ih hB2
        rw [if_neg hb] at h0
        simp [List.filter_cons, h0]
      · have h0 := ih hB2
        have hxne : ¬x = b.ID := fun h => hx h.symm
        simp only [List.filter_cons, decide_eq_true_eq, hx, if_false,
          List.map_cons, List.mem_cons, hxne, false_or]
        exact h0

lemma length_filter_map_id (A : List ClassifiedRow) (p : Option String → Bool) :
    (A.filter (fun a => p a.ID)).length
      = ((A.map (fun a => a.ID)).filter p).length := by
  induction A with
  | nil => rfl
  | cons a A ih =>
      simp only [List.filter_cons, List.map_cons]
      by_cases ha : p a.ID = true
      · simp only [ha, if_true, List.length_cons, ih]
      · simp only [Bool.not_eq_true] at ha
        simp [ha, ih]

lemma length_create_comparison (A B : List ClassifiedRow)
    (hB : (B.map (fun b => b.ID)).Nodup) :
    (create_comparison_dataframe A B).length
      = (A.filter (fun a => decide (a.ID ∈ B.map (fun b => b.ID)))).length := by
  induction A with
  | nil => rfl
  | cons a A ih =>
      simp only [create_comparison_dataframe, List.flatMap_cons,
        List.length_append, List.length_map] at ih ⊢
      rw [ih, length_filter_id_of_nodup B a.ID hB, List.filter_cons]
      by_cases ha : a.ID ∈ B.map (fun b => b.ID) <;> simp [ha, Nat.add_comm]

/-- C3: the merge is an inner join on worker id.  For classified tables with
unique worker ids (the data model has one record per worker id per period),
the number of output rows equals the cardinality of the intersection of the
two id sets, and in every output row `Rate_Change = Current_Rate - Last_Rate`,
`UIT_Change = Current_UIT - Last_UIT`, and `Zone_Changed` is true exactly when
the current zone differs from the last zone. -/
theorem create_comparison_dataframe_inner_join (A B : List ClassifiedRow)
    (hA : (A.map (fun a => a.ID)).Nodup) (hB : (B.map (fun b => b.ID)).Nodup) :
    (create_comparison_dataframe A B).length
      = ((A.map (fun a => a.ID)).toFinset ∩ (B.map (fun b => b.ID)).toFinset).card ∧
    (create_comparison_dataframe A B).all (fun row =>
        decide (row.Rate_Change = row.Current_Rate - row.Last_Rate)
        && decide (row.UIT_Change = row.Current_UIT - row.Last_UIT)
        && (row.Zone_Changed == decide (row.Zone ≠ row.Last_Zone))) = true := by
  constructor
  · rw [length_create_comparison A B hB]
    rw [length_filter_map_id A (fun x => decide (x ∈ B.map (fun b => b.ID)))]
    have hnd : ((A.map (fun a => a.ID)).filter
        (fun x => decide (x ∈ B.map (fun b => b.ID)))).Nodup := hA.filter _
    rw [← List.toFinset_card_of_nodup hnd, List.toFinset_filter]
    congr 1
    ext x
    simp [Finset.mem_filter, Finset.mem_inter, List.mem_toFinset]
  · rw [List.all_eq_true]
    intro row hrow
    simp only [create_comparison_dataframe, List.mem_flatMap, List.mem_map,
      List.mem_filter] at hrow
    obtain ⟨a, _, b, _, rfl⟩ := hrow
    simp

/-- Witness for C3 on two concrete two-row classified tables sharing exactly
one worker id. -/
theorem create_comparison_dataframe_inner_join_witness :
    (([⟨some "A", 1, 2, zone4⟩, ⟨some "B", 3, 4, zone2⟩] :
        List ClassifiedRow).map (fun a => a.ID)).Nodup ∧
    (([⟨some "B", 5, 6, zone3⟩, ⟨some "C", 7, 8, zone4⟩] :
        List ClassifiedRow).map (fun b => b.ID)).Nodup ∧
    ((create_comparison_dataframe
        [⟨some "A", 1, 2, zone4⟩, ⟨some "B", 3, 4, zone2⟩]
        [⟨some "B", 5, 6, zone3⟩, ⟨some "C", 7, 8, zone4⟩]).length
      = ((([⟨some "A", 1, 2, zone4⟩, ⟨some "B", 3, 4, zone2⟩] :
            List ClassifiedRow).map (fun a => a.ID)).toFinset ∩
         (([⟨some "B", 5, 6, zone3⟩, ⟨some "C", 7, 8, zone4⟩] :
            List ClassifiedRow).map (fun b => b.ID)).toFinset).card ∧
     (create_comparison_dataframe
        [⟨some "A", 1, 2, zone4⟩, ⟨some "B", 3, 4, zone2⟩]
        [⟨some "B", 5, 6, zone3⟩, ⟨some "C", 7, 8, zone4⟩]).all (fun row =>
          decide (row.Rate_Change = row.Current_Rate - row.Last_Rate)
          && decide (row.UIT_Change = row.Current_UIT - row.Last_UIT)
          && (row.Zone_Changed == decide (row.Zone ≠ row.Last_Zone))) = true) :=
  ⟨by decide, by decide,
   create_comparison_dataframe_inner_join
     [⟨some "A", 1, 2, zone4⟩, ⟨some "B", 3, 4, zone2⟩]
     [⟨some "B", 5, 6, zone3⟩, ⟨some "C", 7, 8, zone4⟩]
     (by decide) (by decide)⟩

/-- Required source column names (src/utils.py line 21). -/
def REQUIRED_COLUMNS : List String := ["User_Id", "Stow_Rate", "Turnaway_Percentage"]

/-- A raw CSV row before validation: any of the three required cells may be
null (pandas `NaN`). -/
structure RawRow where
  user_id : Option String
  stow_rate : Option ℚ
  turnaway_pct : Option ℚ
deriving DecidableEq, Repr

/-- A raw uploaded table: the column names the CSV actually has, and its rows. -/
structure RawTable where
  columns : List String
  rows : List RawRow
deriving DecidableEq, Repr

/-- `df.dropna(subset=['RATES', 'UIT'])` after the renaming: keep exactly the
rows whose rate and idle-time cells are non-null (a null `ID` is kept), and
read off their values.  When no cell is null this is the identity, matching
the source's conditional `dropna`. -/
def dropNullRows (rows : List RawRow) : List Row :=
  rows.filterMap (fun r =>
    match r.stow_rate, r.turnaway_pct with
    | some a, some b => some ⟨r.user_id, a, b⟩
    | _, _ => none)

/-- Range check of src/utils.py line 89 on a single kept row:
`RATES < 0` or `UIT < 0` or `UIT > 100`. -/
def rowOutOfRange (r : Row) : Bool :=
  decide (r.RATES < 0) || decide (r.UIT < 0) || decide (r.UIT > 100)

/-- Embedding of `validate_and_process_data(file, period)` (src/utils.py lines
69–98).  Returns `none` (the Python `None`) when a required column is missing
or when, after null-dropping, any row is out of range; otherwise returns the
null-dropped table.  The `st.error`/`st.warning` calls are UI side effects
outside the model. -/
def validate_and_process_data (t : RawTable) : Option (List Row) :=
  let missing := REQUIRED_COLUMNS.filter (fun c => !(t.columns.contains c))
  if missing.isEmpty then
    let kept := dropNullRows t.rows
    if kept.any rowOutOfRange then none else some kept
  else none

/-- C6: for a table with all required fields, null-rate/null-idle rows are
dropped individually, and the whole table is rejected (empty result) exactly
when some remaining row has `rate < 0`, `idle_time_pct < 0` or
`idle_time_pct > 100`; otherwise the result is precisely the null-dropped
rows — nulls alone never invalidate the table. -/
theorem validate_range_all_or_nothing (t : RawTable)
    (h : REQUIRED_COLUMNS.all (fun c => t.columns.contains c) = true) :
    validate_and_process_data t =
      if (dropNullRows t.rows).any rowOutOfRange then none
      else some (dropNullRows t.rows) := by
  have hmiss : REQUIRED_COLUMNS.filter (fun c => !(t.columns.contains c)) = [] := by
    rw [List.filter_eq_nil_iff]
    intro c hc
    rw [List.all_eq_true] at h
    simpa using h c hc
  simp only [validate_and_process_data, hmiss, List.isEmpty_nil, if_true]

/-- Witness for C6: a five-row table with one null idle-time row (dropped,
four rows kept) and no out-of-range value. -/
theorem validate_range_all_or_nothing_witness :
    REQUIRED_COLUMNS.all (fun c =>
      (RawTable.mk ["User_Id", "Stow_Rate", "Turnaway_Percentage"]
        [⟨some "w1", some 10, some 5⟩, ⟨some "w2", some 20, none⟩,
         ⟨some "w3", some 30, some 15⟩, ⟨some "w4", some 40, some 20⟩,
         ⟨some "w5", some 50, some 25⟩]).columns.contains c) = true ∧
    validate_and_process_data
        (RawTable.mk ["User_Id", "Stow_Rate", "Turnaway_Percentage"]
          [⟨some "w1", some 10, some 5⟩, ⟨some "w2", some 20, none⟩,
           ⟨some "w3", some 30, some 15⟩, ⟨some "w4", some 40, some 20⟩,
           ⟨some "w5", some 50, some 25⟩]) =
      if (dropNullRows [⟨some "w1", some 10, some 5⟩, ⟨some "w2", some 20, none⟩,
            ⟨some "w3", some 30, some 15⟩, ⟨some "w4", some 40, some 20⟩,
            ⟨some "w5", some 50, some 25⟩]).any rowOutOfRange then none
      else some (dropNullRows [⟨some "w1", some 10, some 5⟩, ⟨some "w2", some 20, none⟩,
            ⟨some "w3", some 30, some 15⟩, ⟨some "w4", some 40, some 20⟩,
            ⟨some "w5", some 50, some 25⟩]) :=
  ⟨by decide,
   validate_range_all_or_nothing
     (RawTable.mk ["User_Id", "Stow_Rate", "Turnaway_Percentage"]
       [⟨some "w1", some 10, some 5⟩, ⟨some "w2", some 20, none⟩,
        ⟨some "w3", some 30, some 15⟩, ⟨some "w4", some 40, some 20⟩,
        ⟨some "w5", some 50, some 25⟩]) (by decide)⟩

/-- C10: the validator drops only rows whose rate or idle-time is null — a row
with a null worker identifier but non-null cells passes validation and is
retained in the output table whenever the validator succeeds. -/
theorem validate_keeps_null_id_row (t : RawTable) (r : RawRow) (a b : ℚ)
    (out : List Row)
    (hr : r ∈ t.rows) (hid : r.user_id = none)
    (ha : r.stow_rate = some a) (hb : r.turnaway_pct = some b)
    (hout : validate_and_process_data t = some out) :
    (⟨none, a, b⟩ : Row) ∈ out := by
  have hmem : (⟨none, a, b⟩ : Row) ∈ dropNullRows t.rows := by
    simp only [dropNullRows, List.mem_filterMap]
    exact ⟨r, hr, by rw [ha, hb, hid]⟩
  have hout2 : dropNullRows t.rows = out := by
    simp only [validate_and_process_data] at hout
    by_cases hmiss :
        (REQUIRED_COLUMNS.filter (fun c => !(t.columns.contains c))).isEmpty = true
    · rw [if_pos hmiss] at hout
      by_cases hrange : (dropNullRows t.rows).any rowOutOfRange = true
      · rw [if_pos hrange] at hout
        exact absurd hout (by simp)
      · rw [if_neg hrange] at hout
        exact Option.some.inj hout
    · rw [if_neg hmiss] at hout
      exact absurd hout (by simp)
  rw [← hout2]
  exact hmem

/-- Witness for C10: a two-row table whose second row has a null `User_Id` but
valid numeric cells; validation succeeds and retains that row. -/
theorem validate_keeps_null_id_row_witness :
    (⟨none, some 7, some 8⟩ : RawRow) ∈
      (RawTable.mk ["User_Id", "Stow_Rate", "Turnaway_Percentage"]
        [⟨some "w1", some 10, some 5⟩, ⟨none, some 7, some 8⟩]).rows ∧
    (⟨none, some 7, some 8⟩ : RawRow).user_id = none ∧
    (⟨none, some 7, some 8⟩ : RawRow).stow_rate = some 7 ∧
    (⟨none, some 7, some 8⟩ : RawRow).turnaway_pct = some 8 ∧
    validate_and_process_data
        (RawTable.mk ["User_Id", "Stow_Rate", "Turnaway_Percentage"]
          [⟨some "w1", some 10, some 5⟩, ⟨none, some 7, some 8⟩])
      = some [⟨some "w1", 10, 5⟩, ⟨none, 7, 8⟩] ∧
    (⟨none, 7, 8⟩ : Row) ∈ ([⟨some "w1", 10, 5⟩, ⟨none, 7, 8⟩] : List Row) :=
  ⟨by decide, rfl, rfl, rfl, by decide,
   validate_keeps_null_id_row
     (RawTable.mk ["User_Id", "Stow_Rate", "Turnaway_Percentage"]
       [⟨some "w1", some 10, some 5⟩, ⟨none, some 7, some 8⟩])
     ⟨none, some 7, some 8⟩ 7 8 [⟨some "w1", 10, 5⟩, ⟨none, 7, 8⟩]
     (by decide) rfl rfl rfl (by decide)⟩

/-- The trends dictionary built by `calculate_performance_trends`
(src/utils.py lines 650–665).  The two means and the stability percentage are
pandas `Series.mean` results, which are `NaN` on an empty Series — hence
`Option ℚ` with `none` for `NaN`. -/
structure TrendSummary where
  rate_trend : Option ℚ
  uit_trend : Option ℚ
  improved_overall : ℕ
  zone_stability : Option ℚ
deriving DecidableEq, Repr

/-- pandas `Series.mean()`: the arithmetic mean of the values, `NaN` (here
`none`) when the Series is empty.  No exception is raised on empty input. -/
def seriesMean (l : List ℚ) : Option ℚ :=
  if l.isEmpty then none else some (l.sum / l.length)

/-- Embedding of `calculate_performance_trends(comparison_df)` (src/utils.py
lines 650–665).  None of the pandas operations involved raises on any list
input (mean of an empty Series is `NaN`, a filter of an empty frame is empty),
so the `except` branch returning Python `None` is never taken: the result is
always `some` of the trends record. -/
def calculate_performance_trends (comparison_df : List ComparisonRow) :
    Option TrendSummary :=
  some
    { rate_trend := seriesMean (comparison_df.map (fun r => r.Rate_Change))
      uit_trend := seriesMean (comparison_df.map (fun r => r.UIT_Change))
      improved_overall :=
        (comparison_df.filter (fun r =>
          decide (r.Rate_Change > 0) && decide (r.UIT_Change < 0))).length
      zone_stability :=
        (seriesMean (comparison_df.map (fun r =>
          if r.Zone = r.Last_Zone then (1 : ℚ) else 0))).map (fun m => m * 100) }

/-- C5 counterexample: on the empty comparison table the trend aggregator does
not signal absence — it returns a present summary (with `NaN` means), so the
claim "returns an absent result" is false at this input. -/
theorem calculate_performance_trends_empty_not_absent :
    calculate_performance_trends ([] : List ComparisonRow) ≠ none := by
  simp [calculate_performance_trends]

/-- C5 amended: on the empty comparison table the trend aggregator does not
crash with a division by zero, but instead of signalling absence it returns a
present summary computed over zero rows: both mean fields and the stability
field are `NaN` (`none`) and the improved-overall count is `0`. -/
theorem calculate_performance_trends_empty_vacuous_summary :
    calculate_performance_trends ([] : List ComparisonRow)
      = some { rate_trend := none, uit_trend := none,
               improved_overall := 0, zone_stability := none } := rfl

lemma sum_indicator_eq_countP (p : ComparisonRow → Prop) [DecidablePred p] :
    ∀ df : List ComparisonRow,
      (df.map (fun r => if p r then (1 : ℚ) else 0)).sum
        = (df.countP (fun r => decide (p r)) : ℚ)
  | [] => by simp
  | r :: df => by
      by_cases hp : p r <;>
        simp [List.countP_cons, hp, sum_indicator_eq_countP p df, add_comm]

/-- C7: on a non-empty comparison table, `improved_overall` counts exactly the
rows with `Rate_Change > 0` and `UIT_Change < 0` (both strict), and
`zone_stability` is the fraction of rows whose current `Zone` equals their
`Last_Zone`, expressed as a percentage lying between 0 and 100. -/
theorem calculate_performance_trends_nonempty (df : List ComparisonRow)
    (h : df ≠ []) :
    (calculate_performance_trends df).map (fun tr => tr.improved_overall)
      = some (df.countP (fun r => decide (r.Rate_Change > 0 ∧ r.UIT_Change < 0))) ∧
    (calculate_performance_trends df).map (fun tr => tr.zone_stability)
      = some (some ((df.countP (fun r => decide (r.Zone = r.Last_Zone)) : ℚ)
          / (df.length : ℚ) * 100)) ∧
    0 ≤ (df.countP (fun r => decide (r.Zone = r.Last_Zone)) : ℚ)
          / (df.length : ℚ) * 100 ∧
    (df.countP (fun r => decide (r.Zone = r.Last_Zone)) : ℚ)
          / (df.length : ℚ) * 100 ≤ 100 := by
  have hlen : 0 < df.length := List.length_pos.mpr h
  have hlenQ : (0 : ℚ) < (df.length : ℚ) := by exact_mod_cast hlen
  have hcount : (df.countP (fun r => decide (r.Zone = r.Last_Zone)) : ℚ)
      ≤ (df.length : ℚ) := by
    exact_mod_cast
      List.countP_le_length (fun r : ComparisonRow => decide (r.Zone = r.Last_Zone))
  refine ⟨?_, ?_, ?_, ?_⟩
  · simp only [calculate_performance_trends, Option.map_some']
    congr 1
    rw [List.countP_eq_length_filter]
    exact congrArg List.length (List.filter_congr (fun r _ => by simp))
  · simp only [calculate_performance_trends, Option.map_some']
    congr 1
    have hmean : seriesMean (df.map (fun r =>
          if r.Zone = r.Last_Zone then (1 : ℚ) else 0))
        = some ((df.map (fun r => if r.Zone = r.Last_Zone then (1 : ℚ) else 0)).sum
            / ((df.map (fun r => if r.Zone = r.Last_Zone then (1 : ℚ) else 0)).length : ℚ)) := by
      cases df with
      | nil => exact absurd rfl h
      | cons r df => rfl
    rw [hmean, Option.map_some']
    congr 1
    rw [List.length_map, sum_indicator_eq_countP (fun r => r.Zone = r.Last_Zone) df]
  · positivity
  · calc (df.countP (fun r => decide (r.Zone = r.Last_Zone)) : ℚ)
          / (df.length : ℚ) * 100
        ≤ 1 * 100 := by
          apply mul_le_mul_of_nonneg_right _ (by norm_num)
          exact (div_le_one hlenQ).mpr hcount
      _ = 100 := by norm_num

/-- Witness for C7 on a one-row comparison table whose row improved in both
metrics and kept its zone. -/
theorem calculate_performance_trends_nonempty_witness :
    ([(⟨some "A", 1, 2, zone4, 2, 1, zone4, 1, -1, false⟩ : ComparisonRow)]
        ≠ []) ∧
    ((calculate_performance_trends
        [⟨some "A", 1, 2, zone4, 2, 1, zone4, 1, -1, false⟩]).map
          (fun tr => tr.improved_overall)
      = some (([⟨some "A", 1, 2, zone4, 2, 1, zone4, 1, -1, false⟩] :
          List ComparisonRow).countP
            (fun r => decide (r.Rate_Change > 0 ∧ r.UIT_Change < 0))) ∧
    (calculate_performance_trends
        [⟨some "A", 1, 2, zone4, 2, 1, zone4, 1, -1, false⟩]).map
          (fun tr => tr.zone_stability)
      = some (some ((([⟨some "A", 1, 2, zone4, 2, 1, zone4, 1, -1, false⟩] :
          List ComparisonRow).countP (fun r => decide (r.Zone = r.Last_Zone)) : ℚ)
            / (([⟨some "A", 1, 2, zone4, 2, 1, zone4, 1, -1, false⟩] :
                List ComparisonRow).length : ℚ) * 100)) ∧
    0 ≤ ((([⟨some "A", 1, 2, zone4, 2, 1, zone4, 1, -1, false⟩] :
          List ComparisonRow).countP (fun r => decide (r.Zone = r.Last_Zone)) : ℚ)
            / (([⟨some "A", 1, 2, zone4, 2, 1, zone4, 1, -1, false⟩] :
                List ComparisonRow).length : ℚ) * 100) ∧
    ((([⟨some "A", 1, 2, zone4, 2, 1, zone4, 1, -1, false⟩] :
          List ComparisonRow).countP (fun r => decide (r.Zone = r.Last_Zone)) : ℚ)
            / (([⟨some "A", 1, 2, zone4, 2, 1, zone4, 1, -1, false⟩] :
                List ComparisonRow).length : ℚ) * 100) ≤ 100) :=
  ⟨by decide,
   calculate_performance_trends_nonempty
     [⟨some "A", 1, 2, zone4, 2, 1, zone4, 1, -1, false⟩] (by decide)⟩

/-- The per-worker report dictionary built by `generate_individual_report`
(src/utils.py lines 622–648). -/
structure WorkerReport where
  ID : Option String
  Current_Zone : String
  Previous_Zone : String
  Rate_Change : ℚ
  UIT_Change : ℚ
  Improvement_Areas : List String
deriving DecidableEq, Repr

/-- Embedding of `generate_individual_report(worker_id, comparison_df)`
(src/utils.py lines 622–648): `None` when `worker_id` is not among the `ID`
values, otherwise the first matching row's fields (`.iloc[0]`), with `'Rate'`
appended to the improvement areas when `Rate_Change < 0` and `'UIT'` appended
when `UIT_Change > 0`.  The unreachable `none` arm mirrors the `except`
branch (an `iloc[0]` on an empty selection would raise and return `None`). -/
def generate_individual_report (worker_id : Option String)
    (comparison_df : List ComparisonRow) : Option WorkerReport :=
  if comparison_df.any (fun r => decide (r.ID = worker_id)) then
    match (comparison_df.filter (fun r => decide (r.ID = worker_id))).head? with
    | some w =>
        some { ID := worker_id
               Current_Zone := w.Zone
               Previous_Zone := w.Last_Zone
               Rate_Change := w.Rate_Change
               UIT_Change := w.UIT_Change
               Improvement_Areas :=
                 (if w.Rate_Change < 0 then ["Rate"] else [])
                   ++ (if w.UIT_Change > 0 then ["UIT"] else []) }
    | none => none
  else none

/-- C8: the individual report is absent exactly when the worker id appears in
no row; otherwise it carries the first matching row's fields, and its
improvement-areas list contains `'Rate'` iff that row's `Rate_Change < 0` and
contains `'UIT'` iff that row's `UIT_Change > 0`. -/
theorem generate_individual_report_spec (worker_id : Option String)
    (comparison_df : List ComparisonRow) :
    (generate_individual_report worker_id comparison_df = none ↔
      comparison_df.all (fun r => !decide (r.ID = worker_id)) = true) ∧
    generate_individual_report worker_id comparison_df
      = (comparison_df.find? (fun r => decide (r.ID = worker_id))).map (fun w =>
          { ID := worker_id
            Current_Zone := w.Zone
            Previous_Zone := w.Last_Zone
            Rate_Change := w.Rate_Change
            UIT_Change := w.UIT_Change
            Improvement_Areas :=
              (if w.Rate_Change < 0 then ["Rate"] else [])
                ++ (if w.UIT_Change > 0 then ["UIT"] else []) }) ∧
    (generate_individual_report worker_id comparison_df).map
        (fun rep => decide ("Rate" ∈ rep.Improvement_Areas))
      = (comparison_df.find? (fun r => decide (r.ID = worker_id))).map
          (fun w => decide (w.Rate_Change < 0)) ∧
    (generate_individual_report worker_id comparison_df).map
        (fun rep => decide ("UIT" ∈ rep.Improvement_Areas))
      = (comparison_df.find? (fun r => decide (r.ID = worker_id))).map
          (fun w => decide (w.UIT_Change > 0)) := by
  have hmain : generate_individual_report worker_id comparison_df
      = (comparison_df.find? (fun r => decide (r.ID = worker_id))).map (fun w =>
          { ID := worker_id
            Current_Zone := w.Zone
            Previous_Zone := w.Last_Zone
            Rate_Change := w.Rate_Change
            UIT_Change := w.UIT_Change
            Improvement_Areas :=
              (if w.Rate_Change < 0 then ["Rate"] else [])
                ++ (if w.UIT_Change > 0 then ["UIT"] else []) }) := by
    rw [generate_individual_report]
    by_cases hany :
        comparison_df.any (fun r => decide (r.ID = worker_id)) = true
    · rw [if_pos hany, List.filter_head?]
      obtain ⟨w, hw⟩ := Option.isSome_iff_exists.mp
        (List.find?_isSome.mpr (List.any_eq_true.mp hany))
      rw [hw]
      rfl
    · rw [if_neg hany]
      have hnone : comparison_df.find? (fun r => decide (r.ID = worker_id))
          = none := by
        rw [List.find?_eq_none]
        intro x hx
        rw [Bool.not_eq_true] at hany
        exact List.any_eq_false.mp hany x hx
      rw [hnone]
      rfl
  refine ⟨?_, hmain, ?_, ?_⟩
  · rw [hmain]
    simp [Option.map_eq_none', List.find?_eq_none, List.all_eq_true]
  · rw [hmain]
    cases hf : comparison_df.find? (fun r => decide (r.ID = worker_id)) with
    | none => rfl
    | some w =>
        simp only [Option.map_some']
        congr 1
        by_cases h1 : w.Rate_Change < 0 <;> by_cases h2 : w.UIT_Change > 0 <;>
          simp [h1, h2]
  · rw [hmain]
    cases hf : comparison_df.find? (fun r => decide (r.ID = worker_id)) with
    | none => rfl
    | some w =>
        simp only [Option.map_some']
        congr 1
        by_cases h1 : w.Rate_Change < 0 <;> by_cases h2 : w.UIT_Change > 0 <;>
          simp [h1, h2]

/-- A classified DataFrame together with its pandas index: `calculate_zone_transitions`
receives the two full classified frames, whose index labels are the original
CSV row labels (a `RangeIndex` unless `dropna` removed rows). -/
def zoneSeries (df : List (ℕ × ClassifiedRow)) : List (ℕ × String) :=
  df.map (fun p => (p.1, p.2.Zone))

/-- Alignment performed by `pd.crosstab(s1, s2)`: the two `Zone` Series are
combined into one frame by index label (not by position in general, and not
by worker id), and label pairs missing from either side are dropped before
counting. -/
def alignZoneSeries (last current : List (ℕ × String)) : List (String × String) :=
  last.filterMap (fun p => (current.lookup p.1).map (fun z => (p.2, z)))

/-- One inner cell of the matrix built by `calculate_zone_transitions(df_last,
df_current)` (src/utils.py lines 609–620): the number of index-aligned pairs
whose last-week `Zone` is `last_zone` and whose current-week `Zone` is
`current_zone`.  Row/column/grand-total margins (`margins=True`) are the sums
of these cells, with `calculate_zone_transitions_total` the grand total. -/
def calculate_zone_transitions_cell (df_last df_current : List (ℕ × ClassifiedRow))
    (last_zone current_zone : String) : ℕ :=
  ((alignZoneSeries (zoneSeries df_last) (zoneSeries df_current)).filter
    (fun p => decide (p.1 = last_zone) && decide (p.2 = current_zone))).length

/-- Grand-total margin of the crosstab: the number of aligned pairs. -/
def calculate_zone_transitions_total
    (df_last df_current : List (ℕ × ClassifiedRow)) : ℕ :=
  (alignZoneSeries (zoneSeries df_last) (zoneSeries df_current)).length

/-- Modelled from the claim's words (the spec's intended semantics of the
transition matrix, used only for comparison with the code's crosstab): the
number of workers whose last-period row has zone `last_zone` and whose
current-period row (same worker id) has zone `current_zone`. -/
def workerTransitionCount (df_last df_current : List (ℕ × ClassifiedRow))
    (last_zone current_zone : String) : ℕ :=
  (df_last.flatMap (fun p => df_current.filter (fun q =>
    decide (q.2.ID = p.2.ID) && decide (p.2.Zone = last_zone)
      && decide (q.2.Zone = current_zone)))).length

/-- Last-week table of the C4 failing input: worker A (rate 10, UIT 5,
Zone 2) at index 0 and worker B (rate 1, UIT 50, Zone 3) at index 1. -/
def lastWeekMisaligned : List (ℕ × ClassifiedRow) :=
  [(0, ⟨some "A", 10, 5, zone2⟩), (1, ⟨some "B", 1, 50, zone3⟩)]

/-- Current-week table of the C4 failing input: the same two workers with the
same metrics and zones, but listed in the opposite row order. -/
def currentWeekMisaligned : List (ℕ × ClassifiedRow) :=
  [(0, ⟨some "B", 1, 50, zone3⟩), (1, ⟨some "A", 10, 5, zone2⟩)]

/-- C4 exhibit: at the failing input no worker changes zone, so the claimed
per-worker matrix has `(Zone 2, Zone 2) = 1` and `(Zone 2, Zone 3) = 0`; but
the code's crosstab pairs the two `Zone` columns by row index, yielding
`(Zone 2, Zone 2) = 0` and `(Zone 2, Zone 3) = 1` — the code counts row
positions, not workers. -/
theorem zone_transitions_index_alignment_bug :
    workerTransitionCount lastWeekMisaligned currentWeekMisaligned zone2 zone2 = 1 ∧
    workerTransitionCount lastWeekMisaligned currentWeekMisaligned zone2 zone3 = 0 ∧
    calculate_zone_transitions_cell lastWeekMisaligned currentWeekMisaligned
      zone2 zone2 = 0 ∧
    calculate_zone_transitions_cell lastWeekMisaligned currentWeekMisaligned
      zone2 zone3 = 1 ∧
    calculate_zone_transitions_total lastWeekMisaligned currentWeekMisaligned = 2 := by
  decide
